import Mathlib

/-
Verification development for the hope-graph-updater repository.

The two Python classes AqiFetcher (src/aqi_updater/aqi_fetcher.py) and
AqiUpdater (src/aqi_updater/aqi_updater.py) are embedded shallowly:

* Python/numpy float values are modelled by the inductive `PyFloat`
  (a finite rational, NaN, +inf or -inf); Python comparison operators,
  `np.isfinite` and `pd.notnull` are modelled by `pyLt`, `pyEq`,
  `isfinite` and `pd_notnull` with the IEEE comparison semantics that
  Python/numpy implement (NaN compares false to everything).
* pandas dataframes become lists of rows; `drop_duplicates` (keep the
  first occurrence), `pd.merge(..., how='left')` and column filters are
  modelled by the corresponding list functions below.
* shapely line geometries are abstracted at their interface: the only
  use the pipeline makes of a geometry is `geom.interpolate(0.5,
  normalized=True)`, so `LineStringGeom` records that midpoint; an edge
  whose geometry is not a LineString is modelled by `geom = none`.
* the raster (rasterio) is abstracted at its interface as a function
  from coordinates to the sampled value.
* stateful code becomes explicit state passing; Python exceptions become
  `Except` values, returned together with the state as mutated up to the
  raise point (Python keeps mutations performed before an exception).
* Python `round` uses bankers rounding at exact representation ties;
  `round_to` rounds ties away from the nearest even instead, which is
  immaterial to every claim below (none depends on tie behaviour).
-/

namespace AqiModel

/-- A Python/numpy float value: a finite rational, NaN, +inf or -inf. -/
inductive PyFloat where
  | finite (q : ℚ)
  | nan
  | inf
  | ninf
deriving DecidableEq

/-- Python `a < b` on float values: NaN compares false to everything. -/
def pyLt : PyFloat → PyFloat → Bool
  | .nan, _ => false
  | _, .nan => false
  | .finite a, .finite b => decide (a < b)
  | .finite _, .inf => true
  | .finite _, .ninf => false
  | .inf, _ => false
  | .ninf, .ninf => false
  | .ninf, _ => true

/-- Python `a == b` on float values: NaN is not equal to anything. -/
def pyEq : PyFloat → PyFloat → Bool
  | .nan, _ => false
  | _, .nan => false
  | .finite a, .finite b => decide (a = b)
  | .inf, .inf => true
  | .ninf, .ninf => true
  | _, _ => false

/-- `np.isfinite`: true exactly on finite values. -/
def isfinite : PyFloat → Bool
  | .finite _ => true
  | _ => false

/-- `pd.notnull` on a float column: false exactly on NaN. -/
def pd_notnull : PyFloat → Bool
  | .nan => false
  | _ => true

/-- Rounding a rational to a given number of decimal digits
(Python `round(q, digits)`; tie behaviour immaterial to the claims). -/
def round_to (digits : ℕ) (q : ℚ) : ℚ := (round (q * 10 ^ digits) : ℚ) / 10 ^ digits

/-- `round(x.item(), 2)` from aqi_updater.py line 95: rounding of the
sampled value; NaN and infinities round to themselves. -/
def py_round2 : PyFloat → PyFloat
  | .finite q => .finite (round_to 2 q)
  | v => v

/-- AqiUpdater.__get_valid_aqi_or_nan (aqi_updater.py lines 104-113):
`np.isfinite` holds exactly on the `finite` constructor, on which the
comparisons with 0.95 and 1 are rational comparisons. -/
def get_valid_aqi_or_nan : PyFloat → PyFloat
  | .finite q =>
      if q < 95 / 100 then PyFloat.nan
      else if q < 1 then PyFloat.finite 1
      else PyFloat.finite q
  | _ => PyFloat.nan

/-- AqiUpdater.__get_aqi_class (aqi_updater.py lines 115-119):
`floor(aqi * 2)` when `np.isfinite(aqi)`, else 0. -/
def get_aqi_class : PyFloat → ℤ
  | .finite q => ⌊q * 2⌋
  | _ => 0

/-- A value appearing in the sampled 'aqi' column, as seen by
`isinstance(aqi, float)`: either a float value or something that is not
a Python float. -/
inductive PyVal where
  | float (v : PyFloat)
  | nonFloat
deriving DecidableEq

/-- validate_aqi_exp, inner function of AqiUpdater.__validate_df_aqi
(aqi_updater.py lines 145-155). -/
def validate_aqi_exp : PyVal → ℕ
  | .nonFloat => 4
  | .float v =>
      if pyLt v (PyFloat.finite 0) then 3
      else if pyEq v (PyFloat.finite 0) then 1
      else if pyLt v (PyFloat.finite 1) then 2
      else 0

/-- AqiUpdater.__validate_df_aqi (aqi_updater.py lines 141-175): the
dataframe is valid when every row's validity code is at most 1
(row_count equals aqi_ok_count); on failure the caller only logs. -/
def validate_df_aqi (aqis : List PyVal) : Bool :=
  let row_count := aqis.length
  let aqi_ok_count := (aqis.filter (fun a => decide (validate_aqi_exp a ≤ 1))).length
  decide (row_count = aqi_ok_count)

/-- A shapely LineString at the interface the pipeline uses: the only
operation applied to it is `interpolate(0.5, normalized=True)`, whose
result (the arc-length midpoint, in WGS84) is recorded here. -/
structure LineStringGeom where
  midpoint : ℚ × ℚ
deriving DecidableEq

/-- An edge of the routing graph as loaded from graphml: a stable
integer id, an optional way-grouping id, and a geometry that is either
a valid LineString or not (`none` models a null/invalid geometry). -/
structure Edge where
  id_ig : ℤ
  way_id : Option ℤ
  geom : Option LineStringGeom
deriving DecidableEq

/-- The routing graph: its list of edges. -/
structure Graph where
  edges : List Edge
deriving DecidableEq

/-- The value of the id_way column: either a way-grouping id or the
quantized-coordinate key (recorded as the pair of rounded coordinates;
the string built from them in the source is determined by and
determines this pair). -/
inductive WayId where
  | way (w : ℤ)
  | coord (x y : ℚ)
deriving DecidableEq

/-- Modelled from the spec: the derivation of the sampling key happens
at graph load in common/igraph.py, which is not part of the sources
under src/ (only its callers are). Per the spec, the key is the
way-grouping id if the graph provides one and otherwise a string built
from the edge midpoint's coordinates rounded to 7 decimal digits. -/
def derive_sampling_key (way_id : Option ℤ) (p : ℚ × ℚ) : WayId :=
  match way_id with
  | some w => WayId.way w
  | none => WayId.coord (round_to 7 p.1) (round_to 7 p.2)

/-- A row of AqiUpdater.__edge_gdf: edge id, id_way column and the
point_geom column (the edge midpoint). -/
structure SRow where
  id_ig : ℤ
  id_way : WayId
  point_geom : ℚ × ℚ
deriving DecidableEq

/-- AqiUpdater.__get_sampling_point_gdf_from_graph (aqi_updater.py
lines 67-74): keep only edges whose geometry is a LineString and add
the midpoint column; the id_way column carries the sampling key
attached at graph load (see derive_sampling_key). The filterMap fuses
the isinstance filter (line 72) with the midpoint column (line 73). -/
def get_sampling_point_gdf_from_graph (g : Graph) : List SRow :=
  g.edges.filterMap (fun e =>
    match e.geom with
    | some ls => some (SRow.mk e.id_ig (derive_sampling_key e.way_id ls.midpoint) ls.midpoint)
    | none => none)

/-- pandas drop_duplicates on the id_way column with the default
keep='first': keep a row when its key has not been seen before. -/
def drop_duplicates_go (seen : List WayId) : List SRow → List SRow
  | [] => []
  | r :: rs =>
      if r.id_way ∈ seen then drop_duplicates_go seen rs
      else r :: drop_duplicates_go (r.id_way :: seen) rs

/-- `self.__edge_gdf.drop_duplicates(E.id_way.name)` (aqi_updater.py
line 24). -/
def drop_duplicates (rows : List SRow) : List SRow := drop_duplicates_go [] rows

/-- A row of the sampled dataframe: edge id, id_way and the aqi value. -/
structure AqiRow where
  id_ig : ℤ
  id_way : WayId
  aqi : PyFloat
deriving DecidableEq

/-- The raster at the interface used by the pipeline:
`aqi_raster.sample(coords)` is a function from coordinates to the
sampled value. -/
abbrev Raster := ℚ × ℚ → PyFloat

/-- AqiUpdater.__round_coordinates with the default digits=6
(aqi_updater.py lines 138-139), applied to one coordinate pair. -/
def round_coordinates (p : ℚ × ℚ) : ℚ × ℚ := (round_to 6 p.1, round_to 6 p.2)

/-- One sampled-and-rounded value (aqi_updater.py lines 92-95). -/
def raw_sample (raster : Raster) (r : SRow) : PyFloat :=
  py_round2 (raster (round_coordinates r.point_geom))

/-- AqiUpdater.__sample_aqi_to_point_gdf (aqi_updater.py lines 76-102):
sample the raster at the deduplicated points, validate (returning the
validation outcome; on failure the source logs 'AQI sampling failed'
and continues), then normalize each value. Returns the resulting rows
together with the validation outcome. -/
def sample_aqi_to_point_gdf (raster : Raster) (g : Graph) : List AqiRow × Bool :=
  let gdf := drop_duplicates (get_sampling_point_gdf_from_graph g)
  let raw_rows := gdf.map (fun r => AqiRow.mk r.id_ig r.id_way (raw_sample raster r))
  let ok := validate_df_aqi (raw_rows.map (fun r => PyVal.float r.aqi))
  (raw_rows.map (fun r => AqiRow.mk r.id_ig r.id_way (get_valid_aqi_or_nan r.aqi)), ok)

/-- AqiUpdater.__export_aqi_map_json (aqi_updater.py lines 121-128):
drop null aqi rows, then pair each id_way with its aqi class. -/
def export_aqi_map_json (sample_rows : List AqiRow) : List (WayId × ℤ) :=
  (sample_rows.filter (fun r => pd_notnull r.aqi)).map (fun r => (r.id_way, get_aqi_class r.aqi))

/-- pandas `pd.merge(left, right, on=id_way, how='left')` (aqi_updater.py
line 132): every left row is paired with each matching right row, or
with NaN when no right row matches. -/
def merge_left (left : List SRow) (right : List AqiRow) : List AqiRow :=
  left.flatMap (fun l =>
    match right.filter (fun r => decide (r.id_way = l.id_way)) with
    | [] => [AqiRow.mk l.id_ig l.id_way PyFloat.nan]
    | ms => ms.map (fun r => AqiRow.mk l.id_ig l.id_way r.aqi))

/-- AqiUpdater.__combine_final_sample_df (aqi_updater.py lines 130-136):
left-merge the full edge table with the sampled values, drop rows whose
aqi is null, and keep the (id_ig, aqi) columns. -/
def combine_final_sample_df (edge_gdf : List SRow) (sampling_rows : List AqiRow) :
    List (ℤ × PyFloat) :=
  let final_sample_df := merge_left edge_gdf sampling_rows
  (final_sample_df.filter (fun r => pd_notnull r.aqi)).map (fun r => (r.id_ig, r.aqi))

/-- The merged table of AqiUpdater.__combine_final_sample_df before the
null filter (aqi_updater.py line 132): the update table before
null-filtering. -/
def aqi_update_merged (raster : Raster) (g : Graph) : List AqiRow :=
  merge_left (get_sampling_point_gdf_from_graph g) (sample_aqi_to_point_gdf raster g).1

/-- AqiUpdater.create_aqi_update_csv (aqi_updater.py lines 48-58):
returns the exported csv rows and the exported aqi map pairs. -/
def create_aqi_update_csv (raster : Raster) (g : Graph) :
    List (ℤ × PyFloat) × List (WayId × ℤ) :=
  let sampled := sample_aqi_to_point_gdf raster g
  (combine_final_sample_df (get_sampling_point_gdf_from_graph g) sampled.1,
   export_aqi_map_json sampled.1)

/-- First matching right row's aqi for a key, NaN when none matches:
the value a left-merge assigns when the right keys are unique. -/
def lookup_aqi (w : WayId) (rows : List AqiRow) : PyFloat :=
  match rows.filter (fun r => decide (r.id_way = w)) with
  | [] => PyFloat.nan
  | r :: _ => r.aqi

/-- The mutable state of AqiFetcher that the fetch pipeline touches
(aqi_fetcher.py lines 47-57). -/
structure FetcherState where
  wip_aqi_tif : String
  latest_aqi_tif : String
  temp_files_to_rm : List String
deriving DecidableEq

/-- AqiFetcher.__get_current_aqi_tif_name (aqi_fetcher.py lines 97-101),
with the current UTC hour string passed explicitly. -/
def get_current_aqi_tif_name (curdt : String) : String := "aqi_" ++ curdt ++ ".tif"

/-- AqiFetcher.__get_current_enfuser_key_filename (aqi_fetcher.py lines
111-119). -/
def get_current_enfuser_key_filename (curdt : String) : String × String :=
  ("Finland/pks/allPollutants_" ++ curdt ++ ".zip", "allPollutants_" ++ curdt ++ ".zip")

/-- The member-name pattern of the extraction step. -/
def all_pollutants_pat : String := "allPollutants"

/-- Whether the first list is an initial segment of the second
(executable model of Python string matching at one position). -/
def starts_with : List Char → List Char → Bool
  | [], _ => true
  | _ :: _, [] => false
  | p :: ps, c :: cs => p = c && starts_with ps cs

/-- Whether `pat` occurs as a contiguous substring (executable model of
Python `pat in s`; the empty pattern occurs in every string). -/
def contains_sub (pat : List Char) : List Char → Bool
  | [] => pat.isEmpty
  | c :: cs => starts_with pat (c :: cs) || contains_sub pat cs

/-- Python `'allPollutants' in file_name` (aqi_fetcher.py line 153). -/
def contains_all_pollutants (s : String) : Bool :=
  contains_sub all_pollutants_pat.data s.data

/-- The loop of AqiFetcher.__extract_zipped_aqi (aqi_fetcher.py lines
151-156): `aqi_nc_name` holds the last matching member name, and stays
unassigned (`none`) when no member matches. -/
def extract_loop (members : List String) : Option String :=
  members.foldl (fun acc m => if contains_all_pollutants m then some m else acc) none

/-- AqiFetcher.__fetch_enfuser_data (aqi_fetcher.py lines 121-137): on
success the zip name is appended to the temp-file removal list and
returned; a download failure (auth, network, missing key) raises before
any state change. -/
def fetch_enfuser_data (download_ok : Bool) (aqi_zip_name : String) (s : FetcherState) :
    FetcherState × Except String String :=
  if download_ok then
    ({ s with temp_files_to_rm := s.temp_files_to_rm ++ [aqi_zip_name] }, Except.ok aqi_zip_name)
  else (s, Except.error ("download failed"))

/-- AqiFetcher.__extract_zipped_aqi (aqi_fetcher.py lines 139-159): the
last member containing 'allPollutants' is appended to the temp-file
removal list and returned; when no member matches, line 158 reads the
never-assigned local `aqi_nc_name` and Python raises UnboundLocalError,
with no state change. -/
def extract_zipped_aqi (members : List String) (s : FetcherState) :
    FetcherState × Except String String :=
  match extract_loop members with
  | some aqi_nc_name =>
      ({ s with temp_files_to_rm := s.temp_files_to_rm ++ [aqi_nc_name] }, Except.ok aqi_nc_name)
  | none => (s, Except.error ("UnboundLocalError: aqi_nc_name"))

/-- Python slicing `s[:-n]` on the character list of a string: drop the
last n characters (empty when the string is shorter). -/
def py_drop_right (n : ℕ) (l : List Char) : List Char := l.take (l.length - n)

/-- Python slicing `s[-n:]` on the character list of a string: the last
n characters (the whole string when it is shorter). -/
def py_take_right (n : ℕ) (l : List Char) : List Char := l.drop (l.length - n)

/-- AqiFetcher.__convert_aqi_nc_to_raster (aqi_fetcher.py lines
161-187): on success the tif name is derived from the nc name
(lines 183-184), the raster is written, and line 186 assigns
`self.latest_aqi_tif = aqi_tif_name` before returning; a decode/write
failure raises before that assignment. -/
def convert_aqi_nc_to_raster (convert_ok : Bool) (aqi_nc_name : String) (s : FetcherState) :
    FetcherState × Except String String :=
  if convert_ok then
    let aqi_date_str := String.mk (py_take_right 13 (py_drop_right 3 aqi_nc_name.data))
    let aqi_tif_name := "aqi_" ++ aqi_date_str ++ ".tif"
    ({ s with latest_aqi_tif := aqi_tif_name }, Except.ok aqi_tif_name)
  else (s, Except.error ("failed to read nc dataset"))

/-- The offset sequence of AqiFetcher.__fillna_in_raster (aqi_fetcher.py
line 207). -/
def fillna_offsets : List ℚ := [0, 1/100, 2/100, 4/100, 6/100, 8/100, 1/10, 12/100]

/-- `np.sum(aqi_band <= na_offset)` (aqi_fetcher.py line 209). -/
def nodata_count (band : List ℚ) (thr : ℚ) : ℕ :=
  (band.filter (fun c => decide (c ≤ thr))).length

/-- The threshold-search loop of AqiFetcher.__fillna_in_raster
(aqi_fetcher.py lines 206-213): try each offset in order, breaking as
soon as the nodata count exceeds 180000; the accumulator carries the
last-tried (na_offset, nodata_count). -/
def fillna_search_go (band : List ℚ) (na_val : ℚ) : List ℚ → ℚ × ℕ → ℚ × ℕ
  | [], acc => acc
  | o :: os, _ =>
      let na_offset := na_val + o
      let cnt := nodata_count band na_offset
      if 180000 < cnt then (na_offset, cnt)
      else fillna_search_go band na_val os (na_offset, cnt)

/-- The (na_offset, nodata_count) pair the loop of
AqiFetcher.__fillna_in_raster leaves behind (initial na_offset is 0,
line 206; the loop always runs since the offset list is non-empty). -/
def fillna_search (band : List ℚ) (na_val : ℚ) : ℚ × ℕ :=
  fillna_search_go band na_val fillna_offsets (0, 0)

/-- AqiFetcher.__fillna_in_raster (aqi_fetcher.py lines 189-242): `band`
is the raster band read at line 202 (`none` models a rasterio open/read
failure); after the threshold search, when the final nodata count is
below 180000, line 215 calls `self.log.info(text, str(nodata_count))`
with two positional arguments although Logger.info (common/logger.py)
accepts a single text argument, so Python raises TypeError there;
otherwise the band is filled and written back and the tif name is
returned. -/
def fillna_in_raster (band : Option (List ℚ)) (na_val : ℚ) (aqi_tif_name : String) :
    Except String String :=
  match band with
  | none => Except.error ("rasterio failed to open or read the raster")
  | some b =>
      let res := fillna_search b na_val
      if res.2 < 180000 then
        Except.error ("TypeError: info takes 2 positional arguments but 3 were given")
      else Except.ok aqi_tif_name

/-- The environment of one run of the fetch pipeline: the current UTC
hour string and the behaviour of the external collaborators (whether
the download succeeds, the zip member names, whether the nc decode and
raster write succeed, and the raster band read back for the nodata
fill, `none` when reading it fails). -/
structure FetchEnv where
  curdt : String
  download_ok : Bool
  zip_members : List String
  convert_ok : Bool
  band : Option (List ℚ)
deriving DecidableEq

/-- AqiFetcher.fetch_process_current_aqi_data (aqi_fetcher.py lines
78-90): the steps run in order, each step receiving the state mutated
so far; a raise at any step aborts the remaining steps, keeping the
mutations already performed (Python semantics). Returns the state after
the call together with whether it completed without raising. -/
def fetch_process_current_aqi_data (env : FetchEnv) (s0 : FetcherState) :
    FetcherState × Bool :=
  let s1 := { s0 with wip_aqi_tif := get_current_aqi_tif_name env.curdt }
  let key_zip := get_current_enfuser_key_filename env.curdt
  match fetch_enfuser_data env.download_ok key_zip.2 s1 with
  | (s2, Except.error _) => (s2, false)
  | (s2, Except.ok _) =>
      match extract_zipped_aqi env.zip_members s2 with
      | (s3, Except.error _) => (s3, false)
      | (s3, Except.ok aqi_nc_name) =>
          match convert_aqi_nc_to_raster env.convert_ok aqi_nc_name s3 with
          | (s4, Except.error _) => (s4, false)
          | (s4, Except.ok aqi_tif_name) =>
              match fillna_in_raster env.band 1 aqi_tif_name with
              | Except.error _ => (s4, false)
              | Except.ok tif => ({ s4 with latest_aqi_tif := tif }, true)

/-- The state the freshness predicates read and write: the `latest`
identifier of the pipeline (latest_aqi_tif for the fetcher,
latest_aqi_csv for the updater) and the debounced status string. -/
structure StatusState where
  latest : String
  status : String
deriving DecidableEq

/-- The status string and availability flag computed by
AqiFetcher.new_aqi_available (aqi_fetcher.py lines 63-71). -/
def aqi_fetcher_status (current_aqi_tif : String) (st : StatusState) : String × Bool :=
  if st.latest = current_aqi_tif then (("latest AQI data already fetched"), false)
  else (("new AQI data available: ") ++ current_aqi_tif, true)

/-- AqiFetcher.new_aqi_available (aqi_fetcher.py lines 59-76): returns
(b_available, whether a status log line was emitted, the new state). -/
def new_aqi_available (current_aqi_tif : String) (st : StatusState) :
    Bool × Bool × StatusState :=
  let sb := aqi_fetcher_status current_aqi_tif st
  if st.status = sb.1 then (sb.2, false, st)
  else (sb.2, true, { st with status := sb.1 })

/-- Left-to-right non-overlapping replacement of `pat` by `rep`
(executable model of Python `s.replace(pat, rep)` for a non-empty
pattern); the fuel argument, instantiated with the string length, makes
the recursion structural while each step consumes at least one
character. -/
def replace_sub_go (pat rep : List Char) : ℕ → List Char → List Char
  | _, [] => []
  | 0, l => l
  | fuel + 1, c :: cs =>
      if starts_with pat (c :: cs) then
        rep ++ replace_sub_go pat rep fuel (List.drop (pat.length - 1) cs)
      else c :: replace_sub_go pat rep fuel cs

/-- Python `s.replace(pat, rep)` for a non-empty pattern. -/
def py_replace (s pat rep : String) : String :=
  String.mk (replace_sub_go pat.data rep.data s.data.length s.data)

/-- AqiUpdater.__get_aqi_csv_name (aqi_updater.py lines 64-65):
`aqi_tif_name.replace('.tif', '.csv')`. -/
def get_aqi_csv_name (aqi_tif_name : String) : String :=
  py_replace aqi_tif_name (".tif") (".csv")

/-- The status string and availability flag computed by
AqiUpdater.new_update_available (aqi_updater.py lines 33-40). -/
def aqi_updater_status (latest_aqi_tif_name : String) (st : StatusState) : String × Bool :=
  if st.latest = get_aqi_csv_name latest_aqi_tif_name then
    (("Latest AQI update already done"), false)
  else (("New AQI update available: ") ++ latest_aqi_tif_name, true)

/-- AqiUpdater.new_update_available (aqi_updater.py lines 29-46):
returns (b_available, whether a status log line was emitted, the new
state). -/
def new_update_available (latest_aqi_tif_name : String) (st : StatusState) :
    Bool × Bool × StatusState :=
  let sb := aqi_updater_status latest_aqi_tif_name st
  if st.status = sb.1 then (sb.2, false, st)
  else (sb.2, true, { st with status := sb.1 })

/-- A constant raster sampling to the plausible AQI value 2.0,
used in concrete instantiations. -/
def raster_two : Raster := fun _ => PyFloat.finite 2

/-- A constant raster sampling to 0.5, a value the validation flags,
used in concrete instantiations. -/
def raster_half : Raster := fun _ => PyFloat.finite (1 / 2)

/-- A small concrete graph: two edges sharing way-grouping id 5 and one
edge without a way-grouping id, all with valid geometries. -/
def graph_w : Graph :=
  Graph.mk [Edge.mk 1 (some 5) (some (LineStringGeom.mk (0, 0))),
            Edge.mk 2 (some 5) (some (LineStringGeom.mk (1, 1))),
            Edge.mk 3 none (some (LineStringGeom.mk (1 / 3, 2)))]

/-- A concrete fetch-pipeline environment in which the download,
extraction and conversion succeed and the nodata-fill step raises
(reading the raster back fails). -/
def c1_env : FetchEnv :=
  FetchEnv.mk ("2019-11-08T14") true [("allPollutants_2019-11-08T14.nc")] true none

/-- A concrete pre-attempt fetcher state whose latest raster is the
previous hour's. -/
def c1_s0 : FetcherState := FetcherState.mk ("") ("aqi_2019-11-08T13.tif") []

/-- A key is in the deduplicated rows exactly when it is among the rows
and not among the keys already seen. -/
theorem dd_go_key_mem (rows : List SRow) : ∀ (seen : List WayId) (k : WayId),
    k ∈ (drop_duplicates_go seen rows).map SRow.id_way ↔
      (k ∈ rows.map SRow.id_way ∧ k ∉ seen) := by
  induction rows with
  | nil => intro seen k; simp [drop_duplicates_go]
  | cons r rs ih =>
      intro seen k
      by_cases h : r.id_way ∈ seen
      · simp only [drop_duplicates_go, if_pos h, List.map_cons, List.mem_cons, ih]
        constructor
        · intro hk; exact ⟨Or.inr hk.1, hk.2⟩
        · rintro ⟨h1 | h1, h2⟩
          · exact absurd (h1 ▸ h) h2
          · exact ⟨h1, h2⟩
      · simp only [drop_duplicates_go, if_neg h, List.map_cons, List.mem_cons, ih]
        constructor
        · rintro (h1 | ⟨h1, h2⟩)
          · exact ⟨Or.inl h1, h1 ▸ h⟩
          · exact ⟨Or.inr h1, fun hk => h2 (Or.inr hk)⟩
        · rintro ⟨h1 | h1, h2⟩
          · exact Or.inl h1
          · by_cases hk : k = r.id_way
            · exact Or.inl hk
            · exact Or.inr ⟨h1, fun hc => hc.elim hk h2⟩

/-- The keys of the deduplicated rows contain no duplicates. -/
theorem dd_go_keys_nodup (rows : List SRow) : ∀ (seen : List WayId),
    ((drop_duplicates_go seen rows).map SRow.id_way).Nodup := by
  induction rows with
  | nil => intro seen; simp [drop_duplicates_go]
  | cons r rs ih =>
      intro seen
      by_cases h : r.id_way ∈ seen
      · simpa only [drop_duplicates_go, if_pos h] using ih seen
      · simp only [drop_duplicates_go, if_neg h, List.map_cons, List.nodup_cons]
        refine ⟨fun hm => ?_, ih _⟩
        exact ((dd_go_key_mem rs (r.id_way :: seen) r.id_way).1 hm).2 (List.mem_cons_self _ _)

/-- Each key present in the original rows occurs exactly once among the
deduplicated keys, and absent keys occur zero times. -/
theorem dd_key_count (rows : List SRow) (k : WayId) :
    ((drop_duplicates rows).map SRow.id_way).count k =
      if k ∈ rows.map SRow.id_way then 1 else 0 := by
  by_cases h : k ∈ rows.map SRow.id_way
  · rw [if_pos h]
    refine List.count_eq_one_of_mem (dd_go_keys_nodup rows []) ?_
    exact (dd_go_key_mem rows [] k).2 ⟨h, by simp⟩
  · rw [if_neg h]
    refine List.count_eq_zero.2 fun hm => h ((dd_go_key_mem rows [] k).1 hm).1

/-- The sampled rows are the deduplicated rows with each raw sampled
value normalized. -/
theorem samples_eq (raster : Raster) (g : Graph) :
    (sample_aqi_to_point_gdf raster g).1 =
      (drop_duplicates (get_sampling_point_gdf_from_graph g)).map
        (fun r => AqiRow.mk r.id_ig r.id_way (get_valid_aqi_or_nan (raw_sample raster r))) := by
  simp only [sample_aqi_to_point_gdf, List.map_map]
  rfl

/-- Sampling preserves the deduplicated keys. -/
theorem samples_keys (raster : Raster) (g : Graph) :
    (sample_aqi_to_point_gdf raster g).1.map AqiRow.id_way =
      (drop_duplicates (get_sampling_point_gdf_from_graph g)).map SRow.id_way := by
  rw [samples_eq, List.map_map]; rfl

/-- The keys of the sampled rows contain no duplicates. -/
theorem samples_keys_nodup (raster : Raster) (g : Graph) :
    ((sample_aqi_to_point_gdf raster g).1.map AqiRow.id_way).Nodup := by
  rw [samples_keys]; exact dd_go_keys_nodup _ []

/-- When the right keys have no duplicates, filtering for one key
yields at most one row. -/
theorem filter_key_small (right : List AqiRow) (hn : (right.map AqiRow.id_way).Nodup)
    (w : WayId) :
    right.filter (fun r => decide (r.id_way = w)) = [] ∨
      ∃ r, right.filter (fun r => decide (r.id_way = w)) = [r] := by
  induction right with
  | nil => exact Or.inl rfl
  | cons r rs ih =>
      simp only [List.map_cons, List.nodup_cons] at hn
      by_cases h : r.id_way = w
      · right
        refine ⟨r, ?_⟩
        rw [List.filter_cons_of_pos (by simp [h])]
        have hnil : rs.filter (fun x => decide (x.id_way = w)) = [] := by
          rw [List.filter_eq_nil_iff]
          intro a ha hc
          simp only [decide_eq_true_eq] at hc
          exact hn.1 (List.mem_map.2 ⟨a, ha, hc.trans h.symm⟩)
        rw [hnil]
      · rw [List.filter_cons_of_neg (by simp [h])]
        exact ih hn.2

/-- A left merge against a table whose keys have no duplicates assigns
to each left row exactly the looked-up value of its key. -/
theorem merge_left_eq_map (left : List SRow) (right : List AqiRow)
    (hn : (right.map AqiRow.id_way).Nodup) :
    merge_left left right =
      left.map (fun l => AqiRow.mk l.id_ig l.id_way (lookup_aqi l.id_way right)) := by
  induction left with
  | nil => rfl
  | cons l ls ih =>
      have hstep : merge_left (l :: ls) right =
          (match right.filter (fun r => decide (r.id_way = l.id_way)) with
            | [] => [AqiRow.mk l.id_ig l.id_way PyFloat.nan]
            | ms => ms.map (fun r => AqiRow.mk l.id_ig l.id_way r.aqi)) ++
            merge_left ls right := rfl
      have hblock : (match right.filter (fun r => decide (r.id_way = l.id_way)) with
            | [] => [AqiRow.mk l.id_ig l.id_way PyFloat.nan]
            | ms => ms.map (fun r => AqiRow.mk l.id_ig l.id_way r.aqi)) =
          [AqiRow.mk l.id_ig l.id_way (lookup_aqi l.id_way right)] := by
        rcases filter_key_small right hn l.id_way with h | ⟨r, h⟩
        · rw [h]; simp [lookup_aqi, h]
        · rw [h]; simp [lookup_aqi, h]
      rw [hstep, hblock, ih]
      rfl

/-- The merged update table is the broadcast of the looked-up sampled
value over the full (valid-geometry) edge table. -/
theorem merged_eq_map (raster : Raster) (g : Graph) :
    aqi_update_merged raster g =
      (get_sampling_point_gdf_from_graph g).map
        (fun l => AqiRow.mk l.id_ig l.id_way
          (lookup_aqi l.id_way (sample_aqi_to_point_gdf raster g).1)) :=
  merge_left_eq_map _ _ (samples_keys_nodup raster g)

/-- The edge ids of the valid-geometry rows form a sublist of the edge
ids of the graph. -/
theorem rows_ids_sublist (es : List Edge) :
    List.Sublist ((get_sampling_point_gdf_from_graph (Graph.mk es)).map SRow.id_ig)
      (es.map Edge.id_ig) := by
  induction es with
  | nil => simp [get_sampling_point_gdf_from_graph]
  | cons e es ih =>
      cases h : e.geom with
      | some ls =>
          simp only [get_sampling_point_gdf_from_graph, List.filterMap_cons, h,
            List.map_cons] at *
          exact ih.cons₂ _
      | none =>
          simp only [get_sampling_point_gdf_from_graph, List.filterMap_cons, h,
            List.map_cons] at *
          exact ih.cons _

/-- When every edge has a valid geometry, the valid-geometry rows carry
exactly the graph's edge ids, in order. -/
theorem rows_ids_of_valid (es : List Edge) (h : ∀ e ∈ es, e.geom.isSome = true) :
    (get_sampling_point_gdf_from_graph (Graph.mk es)).map SRow.id_ig =
      es.map Edge.id_ig := by
  induction es with
  | nil => simp [get_sampling_point_gdf_from_graph]
  | cons e es ih =>
      obtain ⟨ls, hls⟩ := Option.isSome_iff_exists.1 (h e (List.mem_cons_self _ _))
      have ih2 := ih fun x hx => h x (List.mem_cons_of_mem _ hx)
      simp only [get_sampling_point_gdf_from_graph, List.filterMap_cons, hls,
        List.map_cons] at *
      rw [ih2]

/-- Every row of the exported update table comes from a valid-geometry
edge row, carrying the looked-up value of that row's key. -/
theorem csv_mem_elim (raster : Raster) (g : Graph) (i : ℤ) (a : PyFloat)
    (h : (i, a) ∈ (create_aqi_update_csv raster g).1) :
    ∃ l ∈ get_sampling_point_gdf_from_graph g,
      l.id_ig = i ∧ a = lookup_aqi l.id_way (sample_aqi_to_point_gdf raster g).1 := by
  have hcsv : (create_aqi_update_csv raster g).1 =
      ((aqi_update_merged raster g).filter (fun r => pd_notnull r.aqi)).map
        (fun r => (r.id_ig, r.aqi)) := rfl
  rw [hcsv, merged_eq_map] at h
  simp only [List.mem_map, List.mem_filter] at h
  obtain ⟨x, ⟨⟨l, hl, hlx⟩, _⟩, hxi⟩ := h
  refine ⟨l, hl, ?_, ?_⟩
  · rw [← hlx] at hxi
    exact congrArg Prod.fst hxi
  · rw [← hlx] at hxi
    exact (congrArg Prod.snd hxi).symm

/-- A normalized value is NaN or a finite value that is at least 1. -/
theorem norm_range (v : PyFloat) :
    get_valid_aqi_or_nan v = PyFloat.nan ∨
      ∃ q : ℚ, get_valid_aqi_or_nan v = PyFloat.finite q ∧ 1 ≤ q := by
  cases v with
  | finite q =>
      by_cases h1 : q < 95 / 100
      · left; simp [get_valid_aqi_or_nan, h1]
      · by_cases h2 : q < 1
        · right; exact ⟨1, by simp [get_valid_aqi_or_nan, h1, h2], le_refl 1⟩
        · right; exact ⟨q, by simp [get_valid_aqi_or_nan, h1, h2], not_lt.1 h2⟩
  | nan => left; rfl
  | inf => left; rfl
  | ninf => left; rfl

/-- Claim C2: for every raw sampled value v, normalization returns NaN
if v is non-finite or v < 0.95, exactly 1.0 if 0.95 <= v < 1.0, and v
unchanged if v >= 1.0. -/
theorem c2_normalization :
    (∀ v : PyFloat, isfinite v = false → get_valid_aqi_or_nan v = PyFloat.nan) ∧
    (∀ q : ℚ, q < 95 / 100 → get_valid_aqi_or_nan (PyFloat.finite q) = PyFloat.nan) ∧
    (∀ q : ℚ, 95 / 100 ≤ q → q < 1 →
      get_valid_aqi_or_nan (PyFloat.finite q) = PyFloat.finite 1) ∧
    (∀ q : ℚ, 1 ≤ q → get_valid_aqi_or_nan (PyFloat.finite q) = PyFloat.finite q) := by
  refine ⟨?_, ?_, ?_, ?_⟩
  · intro v hv
    cases v with
    | finite q => simp [isfinite] at hv
    | nan => rfl
    | inf => rfl
    | ninf => rfl
  · intro q h; simp [get_valid_aqi_or_nan, h]
  · intro q h1 h2; simp [get_valid_aqi_or_nan, not_lt.2 h1, h2]
  · intro q h
    have h95 : ¬ q < 95 / 100 := not_lt.2 (le_trans (by norm_num) h)
    simp [get_valid_aqi_or_nan, h95, not_lt.2 h]

/-- Witness for C2 at the concrete inputs 0.5, 0.97, 2.0 and NaN. -/
theorem c2_normalization_witness :
    ((1 : ℚ) / 2 < 95 / 100 ∧ get_valid_aqi_or_nan (PyFloat.finite (1 / 2)) = PyFloat.nan) ∧
    ((95 : ℚ) / 100 ≤ 97 / 100 ∧ (97 : ℚ) / 100 < 1 ∧
      get_valid_aqi_or_nan (PyFloat.finite (97 / 100)) = PyFloat.finite 1) ∧
    ((1 : ℚ) ≤ 2 ∧ get_valid_aqi_or_nan (PyFloat.finite 2) = PyFloat.finite 2) ∧
    (isfinite PyFloat.nan = false ∧ get_valid_aqi_or_nan PyFloat.nan = PyFloat.nan) :=
  ⟨⟨by norm_num, c2_normalization.2.1 (1 / 2) (by norm_num)⟩,
   ⟨by norm_num, by norm_num, c2_normalization.2.2.1 (97 / 100) (by norm_num) (by norm_num)⟩,
   ⟨by norm_num, c2_normalization.2.2.2 2 (by norm_num)⟩,
   ⟨rfl, c2_normalization.1 PyFloat.nan rfl⟩⟩

/-- Claim C1 (code bug): the claim says latest_aqi_tif keeps its prior
value whenever any step of fetch_process_current_aqi_data raises, but
in the run modelled by c1_env (download, extraction and conversion
succeed, then the nodata fill raises) the attempt fails while
latest_aqi_tif has already changed to the new raster name, because
__convert_aqi_nc_to_raster assigns self.latest_aqi_tif at
aqi_fetcher.py line 186, before the nodata-fill step runs. -/
theorem c1_latest_updated_despite_fillna_failure :
    (fetch_process_current_aqi_data c1_env c1_s0).2 = false ∧
    (fetch_process_current_aqi_data c1_env c1_s0).1.latest_aqi_tif =
      ("aqi_2019-11-08T14.tif") ∧
    c1_s0.latest_aqi_tif ≠ ("aqi_2019-11-08T14.tif") := by
  refine ⟨by decide, by decide, by decide⟩

/-- Claim C5 (code bug): on a band where no offset makes the nodata
count exceed the 180000 floor, the threshold search does end with the
last-tried threshold (1 + 0.12) and count, but the failure branch then
raises TypeError - aqi_fetcher.py line 215 passes two positional
arguments to Logger.info, which accepts one - instead of logging a
non-fatal failure and proceeding with the fill. -/
theorem c5_fillna_typeerror :
    fillna_search [2] 1 = (112 / 100, 0) ∧
    fillna_in_raster (some [2]) 1 (("aqi_2020-10-10T08.tif")) =
      Except.error (("TypeError: info takes 2 positional arguments but 3 were given")) := by
  have hs : fillna_search [2] 1 = (112 / 100, 0) := by
    norm_num [fillna_search, fillna_offsets, fillna_search_go, nodata_count,
      List.filter_cons, List.filter_nil]
  exact ⟨hs, by simp [fillna_in_raster, hs]⟩

/-- Folding the extraction loop over members none of which matches the
pattern leaves the accumulator unchanged. -/
theorem extract_loop_go_const : ∀ (members : List String) (acc : Option String),
    (∀ m ∈ members, contains_all_pollutants m = false) →
    members.foldl (fun a m => if contains_all_pollutants m then some m else a) acc = acc := by
  intro members
  induction members with
  | nil => intro acc _; rfl
  | cons m ms ih =>
      intro acc h
      have hm : contains_all_pollutants m = false := h m (List.mem_cons_self _ _)
      simp only [List.foldl_cons, hm, Bool.false_eq_true, if_false]
      exact ih acc fun x hx => h x (List.mem_cons_of_mem _ hx)

/-- Claim C10: for every zip archive none of whose member names
contains 'allPollutants', extraction fails with the unbound-local
error (aqi_nc_name is never assigned, so line 158 of aqi_fetcher.py
raises UnboundLocalError) and the state - in particular the temp-file
removal list - is unchanged. -/
theorem c10_extract_unbound_local (members : List String) (s : FetcherState)
    (h : ∀ m ∈ members, contains_all_pollutants m = false) :
    extract_zipped_aqi members s =
      (s, Except.error (("UnboundLocalError: aqi_nc_name"))) ∧
    (extract_zipped_aqi members s).1.temp_files_to_rm = s.temp_files_to_rm := by
  have hl : extract_loop members = none := extract_loop_go_const members none h
  constructor
  · simp [extract_zipped_aqi, hl]
  · simp [extract_zipped_aqi, hl]

/-- Witness for C10 at a one-member archive without a matching name. -/
theorem c10_extract_unbound_local_witness :
    (∀ m ∈ [("pm25_2019-11-08T14.nc")], contains_all_pollutants m = false) ∧
    extract_zipped_aqi [("pm25_2019-11-08T14.nc")] (FetcherState.mk ("") ("") []) =
      (FetcherState.mk ("") ("") [],
        Except.error (("UnboundLocalError: aqi_nc_name"))) :=
  ⟨by decide, (c10_extract_unbound_local _ _ (by decide)).1⟩

/-- Claim C3: for every routing graph (whose edges, per the data model,
all carry a line geometry), the update table before null-filtering
carries exactly the graph's edge id list, and under the data model's
stable (pairwise distinct) ids every edge id occurs exactly once and no
other id occurs. -/
theorem c3_update_table_ids (raster : Raster) (g : Graph)
    (hgeom : ∀ e ∈ g.edges, e.geom.isSome = true) :
    (aqi_update_merged raster g).map AqiRow.id_ig = g.edges.map Edge.id_ig ∧
    ((g.edges.map Edge.id_ig).Nodup → ∀ i : ℤ,
      ((aqi_update_merged raster g).map AqiRow.id_ig).count i =
        if i ∈ g.edges.map Edge.id_ig then 1 else 0) := by
  have h1 : (aqi_update_merged raster g).map AqiRow.id_ig =
      (get_sampling_point_gdf_from_graph g).map SRow.id_ig := by
    rw [merged_eq_map, List.map_map]; rfl
  have h2 : (get_sampling_point_gdf_from_graph g).map SRow.id_ig =
      g.edges.map Edge.id_ig := by
    cases g with
    | mk es => exact rows_ids_of_valid es hgeom
  refine ⟨h1.trans h2, fun hn i => ?_⟩
  rw [h1, h2]
  by_cases hi : i ∈ g.edges.map Edge.id_ig
  · rw [if_pos hi]; exact List.count_eq_one_of_mem hn hi
  · rw [if_neg hi]; exact List.count_eq_zero.2 hi

/-- Witness for C3 at the concrete graph graph_w and constant raster. -/
theorem c3_update_table_ids_witness :
    (∀ e ∈ graph_w.edges, e.geom.isSome = true) ∧
    (aqi_update_merged raster_two graph_w).map AqiRow.id_ig =
      graph_w.edges.map Edge.id_ig :=
  ⟨by decide, (c3_update_table_ids raster_two graph_w (by decide)).1⟩

/-- Claim C4: every edge with a valid line geometry contributes a row
whose sampling key is derive_sampling_key (the way-grouping id when
present, otherwise the midpoint coordinates quantized to 7 decimal
digits - modelled from the spec since common/igraph.py is not under
src/), every row arises this way, and the deduplicated point set keeps
exactly one representative per distinct sampling key. -/
theorem c4_sampling_key_dedup (g : Graph) :
    (∀ e ∈ g.edges, ∀ ls : LineStringGeom, e.geom = some ls →
      SRow.mk e.id_ig (derive_sampling_key e.way_id ls.midpoint) ls.midpoint ∈
        get_sampling_point_gdf_from_graph g) ∧
    (∀ r ∈ get_sampling_point_gdf_from_graph g, ∃ e ∈ g.edges, ∃ ls : LineStringGeom,
      e.geom = some ls ∧
      r = SRow.mk e.id_ig (derive_sampling_key e.way_id ls.midpoint) ls.midpoint) ∧
    (∀ k : WayId,
      ((drop_duplicates (get_sampling_point_gdf_from_graph g)).map SRow.id_way).count k =
        if k ∈ (get_sampling_point_gdf_from_graph g).map SRow.id_way then 1 else 0) := by
  refine ⟨?_, ?_, fun k => dd_key_count _ k⟩
  · intro e he ls hls
    simp only [get_sampling_point_gdf_from_graph, List.mem_filterMap]
    exact ⟨e, he, by rw [hls]⟩
  · intro r hr
    simp only [get_sampling_point_gdf_from_graph, List.mem_filterMap] at hr
    obtain ⟨e, he, hf⟩ := hr
    cases hls : e.geom with
    | some ls =>
        rw [hls] at hf
        refine ⟨e, he, ls, hls, ?_⟩
        exact (Option.some.injEq _ _ ▸ hf).symm
    | none =>
        rw [hls] at hf
        exact Option.noConfusion hf

/-- Witness for C4 at the way-less edge of graph_w: its row carries the
quantized-coordinate key. -/
theorem c4_sampling_key_dedup_witness :
    (Edge.mk 3 none (some (LineStringGeom.mk (1 / 3, 2))) ∈ graph_w.edges) ∧
    SRow.mk 3 (derive_sampling_key none (1 / 3, 2)) (1 / 3, 2) ∈
      get_sampling_point_gdf_from_graph graph_w := by
  have hm : Edge.mk 3 none (some (LineStringGeom.mk (1 / 3, 2))) ∈ graph_w.edges :=
    List.mem_cons_of_mem _ (List.mem_cons_of_mem _ (List.mem_cons_self _ _))
  exact ⟨hm, (c4_sampling_key_dedup graph_w).1 _ hm _ rfl⟩

/-- Introduction form for rows of the exported update table: every
valid-geometry edge row whose looked-up sampled value is non-null
contributes its (edge id, value) pair. -/
theorem csv_mem_intro (raster : Raster) (g : Graph) (l : SRow)
    (hl : l ∈ get_sampling_point_gdf_from_graph g)
    (hnn : pd_notnull (lookup_aqi l.id_way (sample_aqi_to_point_gdf raster g).1) = true) :
    (l.id_ig, lookup_aqi l.id_way (sample_aqi_to_point_gdf raster g).1) ∈
      (create_aqi_update_csv raster g).1 := by
  have hcsv : (create_aqi_update_csv raster g).1 =
      ((aqi_update_merged raster g).filter (fun r => pd_notnull r.aqi)).map
        (fun r => (r.id_ig, r.aqi)) := rfl
  rw [hcsv, merged_eq_map]
  refine List.mem_map.2
    ⟨AqiRow.mk l.id_ig l.id_way (lookup_aqi l.id_way (sample_aqi_to_point_gdf raster g).1),
      List.mem_filter.2 ⟨List.mem_map.2 ⟨l, hl, rfl⟩, hnn⟩, rfl⟩

/-- The valid-geometry rows of the concrete graph graph_w. -/
theorem rows_w_eval :
    get_sampling_point_gdf_from_graph graph_w =
      [SRow.mk 1 (WayId.way 5) (0, 0), SRow.mk 2 (WayId.way 5) (1, 1),
        SRow.mk 3 (WayId.coord (round_to 7 (1 / 3)) (round_to 7 2)) (1 / 3, 2)] := rfl

/-- The sampled rows of graph_w under the constant raster raster_two. -/
theorem samples_w_eval :
    (sample_aqi_to_point_gdf raster_two graph_w).1 =
      [AqiRow.mk 1 (WayId.way 5) (get_valid_aqi_or_nan (py_round2 (PyFloat.finite 2))),
        AqiRow.mk 3 (WayId.coord (round_to 7 (1 / 3)) (round_to 7 2))
          (get_valid_aqi_or_nan (py_round2 (PyFloat.finite 2)))] := rfl

/-- Rounding and normalizing the plausible value 2.0 returns it. -/
theorem norm_two_eval :
    get_valid_aqi_or_nan (py_round2 (PyFloat.finite 2)) = PyFloat.finite 2 := by
  have h : round_to 2 2 = 2 := by norm_num [round_to, round_eq]
  norm_num [py_round2, get_valid_aqi_or_nan, h]

/-- The looked-up sampled value of key way 5 in graph_w under
raster_two. -/
theorem lookup_w_eval :
    lookup_aqi (WayId.way 5) (sample_aqi_to_point_gdf raster_two graph_w).1 =
      PyFloat.finite 2 := by
  rw [samples_w_eval, norm_two_eval]
  rfl

/-- Claim C6: in the exported update table, any two edges sharing a
sampling key receive the identical normalized AQI value (the value
broadcast from their common deduplicated sample point). -/
theorem c6_shared_key_equal_aqi (raster : Raster) (g : Graph)
    (hids : (g.edges.map Edge.id_ig).Nodup) :
    ∀ r1 ∈ get_sampling_point_gdf_from_graph g,
    ∀ r2 ∈ get_sampling_point_gdf_from_graph g,
    r1.id_way = r2.id_way →
    ∀ a1 a2 : PyFloat,
      (r1.id_ig, a1) ∈ (create_aqi_update_csv raster g).1 →
      (r2.id_ig, a2) ∈ (create_aqi_update_csv raster g).1 → a1 = a2 := by
  intro r1 h1 r2 h2 hkey a1 a2 hm1 hm2
  have hrows : ((get_sampling_point_gdf_from_graph g).map SRow.id_ig).Nodup := by
    cases g with
    | mk es => exact hids.sublist (rows_ids_sublist es)
  obtain ⟨l1, hl1, hid1, hv1⟩ := csv_mem_elim raster g _ _ hm1
  obtain ⟨l2, hl2, hid2, hv2⟩ := csv_mem_elim raster g _ _ hm2
  have e1 : l1 = r1 := List.inj_on_of_nodup_map hrows hl1 h1 hid1
  have e2 : l2 = r2 := List.inj_on_of_nodup_map hrows hl2 h2 hid2
  rw [hv1, hv2, e1, e2, hkey]

/-- Witness for C6: the two edges of graph_w sharing way id 5 both
receive the value 2.0 in the exported table. -/
theorem c6_shared_key_equal_aqi_witness :
    ((graph_w.edges.map Edge.id_ig).Nodup) ∧
    ((1 : ℤ), PyFloat.finite 2) ∈ (create_aqi_update_csv raster_two graph_w).1 ∧
    ((2 : ℤ), PyFloat.finite 2) ∈ (create_aqi_update_csv raster_two graph_w).1 ∧
    PyFloat.finite 2 = PyFloat.finite 2 := by
  have hr1 : SRow.mk 1 (WayId.way 5) (0, 0) ∈ get_sampling_point_gdf_from_graph graph_w := by
    rw [rows_w_eval]; exact List.mem_cons_self _ _
  have hr2 : SRow.mk 2 (WayId.way 5) (1, 1) ∈ get_sampling_point_gdf_from_graph graph_w := by
    rw [rows_w_eval]; exact List.mem_cons_of_mem _ (List.mem_cons_self _ _)
  have hnn : pd_notnull (lookup_aqi (WayId.way 5)
      (sample_aqi_to_point_gdf raster_two graph_w).1) = true := by
    rw [lookup_w_eval]; rfl
  have hm1 : ((1 : ℤ), lookup_aqi (WayId.way 5)
      (sample_aqi_to_point_gdf raster_two graph_w).1) ∈
      (create_aqi_update_csv raster_two graph_w).1 :=
    csv_mem_intro raster_two graph_w (SRow.mk 1 (WayId.way 5) (0, 0)) hr1 hnn
  have hm2 : ((2 : ℤ), lookup_aqi (WayId.way 5)
      (sample_aqi_to_point_gdf raster_two graph_w).1) ∈
      (create_aqi_update_csv raster_two graph_w).1 :=
    csv_mem_intro raster_two graph_w (SRow.mk 2 (WayId.way 5) (1, 1)) hr2 hnn
  rw [lookup_w_eval] at hm1 hm2
  exact ⟨by decide, hm1, hm2,
    c6_shared_key_equal_aqi raster_two graph_w (by decide) _ hr1 _ hr2 rfl _ _ hm1 hm2⟩

/-- Claim C7: the exported class map pairs each way-grouping id with
floor(aqi * 2) of its (non-null, normalized) value; entries with null
aqi never appear; class 0 never appears; and for aqi in [1.0, 5.0) the
class lies in [2, 10]. -/
theorem c7_class_map (raster : Raster) (g : Graph) :
    (∀ r ∈ (sample_aqi_to_point_gdf raster g).1, ∀ q : ℚ, r.aqi = PyFloat.finite q →
      (r.id_way, ⌊q * 2⌋) ∈ (create_aqi_update_csv raster g).2) ∧
    (∀ r ∈ (sample_aqi_to_point_gdf raster g).1, r.aqi = PyFloat.nan →
      ∀ c : ℤ, (r.id_way, c) ∉ (create_aqi_update_csv raster g).2) ∧
    (∀ p ∈ (create_aqi_update_csv raster g).2,
      p.2 ≠ 0 ∧ ∃ q : ℚ, 1 ≤ q ∧ p.2 = ⌊q * 2⌋ ∧ (q < 5 → 2 ≤ p.2 ∧ p.2 ≤ 10)) := by
  have hmap : (create_aqi_update_csv raster g).2 =
      export_aqi_map_json (sample_aqi_to_point_gdf raster g).1 := rfl
  refine ⟨?_, ?_, ?_⟩
  · intro r hr q hq
    rw [hmap]
    refine List.mem_map.2 ⟨r, List.mem_filter.2 ⟨hr, ?_⟩, ?_⟩
    · rw [hq]; rfl
    · rw [hq]; rfl
  · intro r hr hnan c hc
    rw [hmap] at hc
    obtain ⟨r2, hr2f, hr2e⟩ := List.mem_map.1 hc
    have hr2 := List.mem_filter.1 hr2f
    have hkey : r2.id_way = r.id_way := congrArg Prod.fst hr2e
    have heq : r2 = r :=
      List.inj_on_of_nodup_map (samples_keys_nodup raster g) hr2.1 hr hkey
    have hnn := hr2.2
    rw [heq, hnan] at hnn
    simp [pd_notnull] at hnn
  · intro p hp
    rw [hmap] at hp
    obtain ⟨r, hrf, hre⟩ := List.mem_map.1 hp
    obtain ⟨hr, hnn⟩ := List.mem_filter.1 hrf
    have hshape : ∃ v, r.aqi = get_valid_aqi_or_nan v := by
      rw [samples_eq] at hr
      obtain ⟨s, _, hs⟩ := List.mem_map.1 hr
      exact ⟨raw_sample raster s, by rw [← hs]⟩
    obtain ⟨v, hv⟩ := hshape
    rcases norm_range v with hn | ⟨q, hq, h1q⟩
    · rw [hv, hn] at hnn
      simp [pd_notnull] at hnn
    · rw [← hv] at hq
      have hc : p.2 = ⌊q * 2⌋ := by
        rw [← hre]
        show get_aqi_class r.aqi = _
        rw [hq]
        rfl
      have h2 : (2 : ℤ) ≤ ⌊q * 2⌋ := by
        refine Int.le_floor.2 ?_
        push_cast
        linarith
      refine ⟨by rw [hc]; omega, q, h1q, hc, fun h5 => ⟨by rw [hc]; exact h2, ?_⟩⟩
      rw [hc]
      have hlt : ⌊q * 2⌋ < 10 := Int.floor_lt.2 (by push_cast; linarith)
      omega

/-- Witness for C7: in graph_w under raster_two, way 5 is mapped to
class 4 = floor(2.0 * 2). -/
theorem c7_class_map_witness :
    AqiRow.mk 1 (WayId.way 5) (PyFloat.finite 2) ∈
      (sample_aqi_to_point_gdf raster_two graph_w).1 ∧
    (WayId.way 5, (4 : ℤ)) ∈ (create_aqi_update_csv raster_two graph_w).2 := by
  have hmem : AqiRow.mk 1 (WayId.way 5) (PyFloat.finite 2) ∈
      (sample_aqi_to_point_gdf raster_two graph_w).1 := by
    rw [samples_w_eval, norm_two_eval]
    exact List.mem_cons_self _ _
  have h4 : (⌊(2 : ℚ) * 2⌋ : ℤ) = 4 := by norm_num
  have hin := (c7_class_map raster_two graph_w).1 _ hmem 2 rfl
  rw [h4] at hin
  exact ⟨hmem, hin⟩

/-- Claim C8: a sampled value is flagged invalid exactly when it is not
a float, negative, or strictly between 0 and 1 (exactly 0 is
acceptable); dataframe validation passes exactly when every value's
code is acceptable; and a failed validation does not stop the export,
which still produces the full combined table. -/
theorem c8_validation_classes :
    (∀ v : PyVal, 2 ≤ validate_aqi_exp v ↔
      (v = PyVal.nonFloat ∨ ∃ f : PyFloat, v = PyVal.float f ∧
        (pyLt f (PyFloat.finite 0) = true ∨
          (pyLt (PyFloat.finite 0) f = true ∧ pyLt f (PyFloat.finite 1) = true)))) ∧
    (∀ vs : List PyVal, validate_df_aqi vs = true ↔ ∀ v ∈ vs, validate_aqi_exp v ≤ 1) ∧
    (∀ (raster : Raster) (g : Graph), (sample_aqi_to_point_gdf raster g).2 = false →
      (create_aqi_update_csv raster g).1 =
        combine_final_sample_df (get_sampling_point_gdf_from_graph g)
          (sample_aqi_to_point_gdf raster g).1) := by
  refine ⟨?_, ?_, fun raster g _ => rfl⟩
  · intro v
    cases v with
    | nonFloat => simp [validate_aqi_exp]
    | float f =>
        cases f with
        | finite q =>
            simp only [validate_aqi_exp, pyLt, pyEq, decide_eq_true_eq, PyVal.float.injEq,
              PyFloat.finite.injEq]
            by_cases h0 : q < 0
            · simp [h0]
            · by_cases hz : q = 0
              · simp [h0, hz]
              · by_cases h1 : q < 1
                · have hpos : 0 < q := lt_of_le_of_ne (not_lt.1 h0) (Ne.symm hz)
                  simp [h0, hz, h1, hpos]
                · simp [h0, hz, h1]
        | nan => simp [validate_aqi_exp, pyLt, pyEq]
        | inf => simp [validate_aqi_exp, pyLt, pyEq]
        | ninf => simp [validate_aqi_exp, pyLt, pyEq]
  · intro vs
    simp only [validate_df_aqi, decide_eq_true_eq]
    constructor
    · intro h v hv
      have hsub : List.Sublist (vs.filter (fun a => decide (validate_aqi_exp a ≤ 1))) vs :=
        List.filter_sublist vs
      have heq : vs.filter (fun a => decide (validate_aqi_exp a ≤ 1)) = vs :=
        hsub.eq_of_length_le (le_of_eq h)
      simpa using List.filter_eq_self.1 heq v hv
    · intro h
      have heq : vs.filter (fun a => decide (validate_aqi_exp a ≤ 1)) = vs :=
        List.filter_eq_self.2 fun a ha => by simpa using h a ha
      rw [heq]

/-- Rounding 0.5 keeps it at 0.5, a value the validation flags. -/
theorem raw_half_eval : py_round2 (PyFloat.finite (1 / 2)) = PyFloat.finite (1 / 2) := by
  have h : round_to 2 (1 / 2 : ℚ) = 1 / 2 := by norm_num [round_to, round_eq]
  show PyFloat.finite (round_to 2 (1 / 2)) = PyFloat.finite (1 / 2)
  rw [h]

/-- Under raster_half the sampled values of graph_w fail validation. -/
theorem validate_half_false :
    (sample_aqi_to_point_gdf raster_half graph_w).2 = false := by
  have hcode : validate_aqi_exp (PyVal.float (PyFloat.finite (1 / 2))) = 2 := by
    norm_num [validate_aqi_exp, pyLt, pyEq]
  have hfil : List.filter (fun a => decide (validate_aqi_exp a ≤ 1))
      [PyVal.float (PyFloat.finite (1 / 2)), PyVal.float (PyFloat.finite (1 / 2))] = [] := by
    rw [List.filter_cons_of_neg (by simp only [hcode]; decide),
      List.filter_cons_of_neg (by simp only [hcode]; decide), List.filter_nil]
  have hval : (sample_aqi_to_point_gdf raster_half graph_w).2 =
      validate_df_aqi [PyVal.float (py_round2 (PyFloat.finite (1 / 2))),
        PyVal.float (py_round2 (PyFloat.finite (1 / 2)))] := rfl
  rw [hval, raw_half_eval]
  show decide ((2 : ℕ) = (List.filter (fun a => decide (validate_aqi_exp a ≤ 1))
      [PyVal.float (PyFloat.finite (1 / 2)), PyVal.float (PyFloat.finite (1 / 2))]).length) = false
  rw [hfil]
  rfl

/-- Witness for C8: under raster_half validation fails for graph_w, and
the export still produces the full combined table. -/
theorem c8_validation_classes_witness :
    (sample_aqi_to_point_gdf raster_half graph_w).2 = false ∧
    (create_aqi_update_csv raster_half graph_w).1 =
      combine_final_sample_df (get_sampling_point_gdf_from_graph graph_w)
        (sample_aqi_to_point_gdf raster_half graph_w).1 :=
  ⟨validate_half_false, c8_validation_classes.2.2 raster_half graph_w validate_half_false⟩

/-- Claim C9: for both freshness predicates, a status log line is
emitted exactly when the computed status string differs from the
previously stored one, and when two consecutive calls compute the same
status the second call emits no log line (so at most one line is
emitted between them). -/
theorem c9_status_log_debounce :
    (∀ cur st, ((new_aqi_available cur st).2.1 = true ↔
      (aqi_fetcher_status cur st).1 ≠ st.status)) ∧
    (∀ cur1 cur2 st,
      (aqi_fetcher_status cur2 (new_aqi_available cur1 st).2.2).1 =
        (aqi_fetcher_status cur1 st).1 →
      (new_aqi_available cur2 (new_aqi_available cur1 st).2.2).2.1 = false) ∧
    (∀ t st, ((new_update_available t st).2.1 = true ↔
      (aqi_updater_status t st).1 ≠ st.status)) ∧
    (∀ t1 t2 st,
      (aqi_updater_status t2 (new_update_available t1 st).2.2).1 =
        (aqi_updater_status t1 st).1 →
      (new_update_available t2 (new_update_available t1 st).2.2).2.1 = false) := by
  refine ⟨?_, ?_, ?_, ?_⟩
  · intro cur st
    by_cases h : st.status = (aqi_fetcher_status cur st).1
    · simp [new_aqi_available, h]
    · simp [new_aqi_available, h, Ne.symm h]
  · intro cur1 cur2 st h
    by_cases h1 : st.status = (aqi_fetcher_status cur1 st).1
    · have hs : (new_aqi_available cur1 st).2.2 = st := by
        simp [new_aqi_available, h1]
      rw [hs] at h ⊢
      simp [new_aqi_available, h.trans h1.symm]
    · have hs : (new_aqi_available cur1 st).2.2 =
          { st with status := (aqi_fetcher_status cur1 st).1 } := by
        simp [new_aqi_available, h1]
      rw [hs] at h ⊢
      simp [new_aqi_available, h]
  · intro t st
    by_cases h : st.status = (aqi_updater_status t st).1
    · simp [new_update_available, h]
    · simp [new_update_available, h, Ne.symm h]
  · intro t1 t2 st h
    by_cases h1 : st.status = (aqi_updater_status t1 st).1
    · have hs : (new_update_available t1 st).2.2 = st := by
        simp [new_update_available, h1]
      rw [hs] at h ⊢
      simp [new_update_available, h.trans h1.symm]
    · have hs : (new_update_available t1 st).2.2 =
          { st with status := (aqi_updater_status t1 st).1 } := by
        simp [new_update_available, h1]
      rw [hs] at h ⊢
      simp [new_update_available, h]

/-- Witness for C9: two consecutive calls with the same current raster
name; the second call emits no log line. -/
theorem c9_status_log_debounce_witness :
    ((aqi_fetcher_status ("aqi_2020-10-10T08.tif")
        (new_aqi_available ("aqi_2020-10-10T08.tif")
          (StatusState.mk ("aqi_2020-10-10T08.tif") (""))).2.2).1 =
      (aqi_fetcher_status ("aqi_2020-10-10T08.tif")
        (StatusState.mk ("aqi_2020-10-10T08.tif") (""))).1) ∧
    (new_aqi_available ("aqi_2020-10-10T08.tif")
        (new_aqi_available ("aqi_2020-10-10T08.tif")
          (StatusState.mk ("aqi_2020-10-10T08.tif") (""))).2.2).2.1 = false :=
  ⟨by decide, c9_status_log_debounce.2.1 _ _ _ (by decide)⟩

end AqiModel
